import Mathlib

/- Shallow embedding of the cardiorenal risk calculator
   (src/types.ts and src/services/riskCalculations.ts).
   JavaScript numbers are modelled as real numbers; Math.log, Math.exp and
   Math.pow on positive bases are Real.log, Real.exp and Real.rpow. -/

namespace CardioRenal

inductive Gender where
  | MALE
  | FEMALE
deriving DecidableEq

/- types.ts: interface MedicalData. Optional fields are Options. -/
structure MedicalData where
  age : ℝ
  gender : Gender
  height : ℝ
  weight : ℝ
  bmi : ℝ
  systolicBP : ℝ
  diastolicBP : ℝ
  totalCholesterol : ℝ
  hdlCholesterol : ℝ
  hasDiabetes : Bool
  isSmoker : Bool
  onHypertensionMeds : Bool
  onStatins : Bool
  eGFR : ℝ
  acr : ℝ
  useFullKfre : Bool
  phosphate : Option ℝ
  bicarbonate : Option ℝ
  calcium : Option ℝ
  albumin : Option ℝ

/- Locals of calculateCVRisk, curried over the input record. -/

noncomputable def evalAge (d : MedicalData) : ℝ := min (max d.age 30) 79

noncomputable def lnAge (d : MedicalData) : ℝ := Real.log (evalAge d)

noncomputable def lnTotalChol (d : MedicalData) : ℝ := Real.log d.totalCholesterol

noncomputable def lnHDL (d : MedicalData) : ℝ := Real.log d.hdlCholesterol

noncomputable def lnSBP (d : MedicalData) : ℝ := Real.log d.systolicBP

noncomputable def smoker (d : MedicalData) : ℝ := if d.isSmoker then 1 else 0

noncomputable def diabetes (d : MedicalData) : ℝ := if d.hasDiabetes then 1 else 0

noncomputable def indivSum (d : MedicalData) : ℝ :=
  if d.gender = Gender.MALE then
    (12.344 * lnAge d) +
    (11.853 * lnTotalChol d) +
    ((-2.664) * lnAge d * lnTotalChol d) +
    ((-7.990) * lnHDL d) +
    (1.769 * lnAge d * lnHDL d) +
    (if d.onHypertensionMeds then 1.797 * lnSBP d else 1.764 * lnSBP d) +
    (7.837 * smoker d) +
    ((-1.795) * lnAge d * smoker d) +
    (0.658 * diabetes d)
  else
    ((-29.799) * lnAge d) +
    (4.884 * lnAge d * lnAge d) +
    (13.540 * lnTotalChol d) +
    ((-3.114) * lnAge d * lnTotalChol d) +
    ((-13.578) * lnHDL d) +
    (3.149 * lnAge d * lnHDL d) +
    (if d.onHypertensionMeds then 2.019 * lnSBP d else 1.957 * lnSBP d) +
    (7.574 * smoker d) +
    ((-1.665) * lnAge d * smoker d) +
    (0.661 * diabetes d)

noncomputable def meanSum (d : MedicalData) : ℝ :=
  if d.gender = Gender.MALE then 61.1816 else -29.182

noncomputable def s10 (d : MedicalData) : ℝ :=
  if d.gender = Gender.MALE then 0.9144 else 0.9665

noncomputable def riskFactor (d : MedicalData) : ℝ := Real.exp (indivSum d - meanSum d)

/- The pre-statin, pre-clamp risk rate 1 - st^riskFactor at horizon t. -/
noncomputable def rawRisk (d : MedicalData) (t : ℝ) : ℝ :=
  1 - (s10 d ^ (t / 10)) ^ riskFactor d

noncomputable def calculateRiskAtTime (d : MedicalData) (t : ℝ) : ℝ :=
  min (max ((if d.onStatins then rawRisk d t * 0.75 else rawRisk d t) * 100) 0.1) 100

structure CVRisk where
  fiveYear : ℝ
  tenYear : ℝ
  fifteenYear : ℝ
  total : ℝ

noncomputable def calculateCVRisk (d : MedicalData) : CVRisk :=
  { fiveYear := calculateRiskAtTime d 5
    tenYear := calculateRiskAtTime d 10
    fifteenYear := calculateRiskAtTime d 15
    total := calculateRiskAtTime d 10 }

/- calculateRenalRisk (KFRE 4-variable). -/

noncomputable def isMale (d : MedicalData) : ℝ := if d.gender = Gender.MALE then 1 else 0

noncomputable def lnACR (d : MedicalData) : ℝ := Real.log d.acr

noncomputable def renalLp (d : MedicalData) : ℝ :=
  (-0.2201) * (d.age / 10 - 7.036) +
  0.2467 * (isMale d - 0.5642) -
  0.5567 * (d.eGFR / 5 - 7.222) +
  0.4510 * (lnACR d - 5.137)

structure RenalRisk where
  twoYear : ℝ
  fiveYear : ℝ
  tenYear : ℝ

noncomputable def calculateRenalRisk (d : MedicalData) : RenalRisk :=
  { twoYear := (1 - (0.9832 : ℝ) ^ Real.exp (renalLp d)) * 100
    fiveYear := (1 - (0.9365 : ℝ) ^ Real.exp (renalLp d)) * 100
    tenYear := (1 - (0.8200 : ℝ) ^ Real.exp (renalLp d)) * 100 }

/- getCombinedResults. -/

inductive RiskLevel where
  | low
  | moderate
  | high
  | very_high
deriving DecidableEq

structure CvTimeline where
  fiveYear : ℝ
  tenYear : ℝ
  fifteenYear : ℝ

structure Cv30y where
  total : ℝ

structure RenalTimeline where
  twoYear : ℝ
  fiveYear : ℝ
  tenYear : ℝ

structure RiskResults where
  cvTimeline : CvTimeline
  cv30y : Cv30y
  renalTimeline : RenalTimeline
  combinedLevel : RiskLevel

/- The pure four-tier stratification rule on the two scalar inputs. -/
noncomputable def classifyLevel (cvTen renalFive : ℝ) : RiskLevel :=
  if cvTen > 20 ∨ renalFive > 15 then RiskLevel.very_high
  else if cvTen > 10 ∨ renalFive > 10 then RiskLevel.high
  else if cvTen > 5 ∨ renalFive > 5 then RiskLevel.moderate
  else RiskLevel.low

noncomputable def getCombinedResults (d : MedicalData) : RiskResults :=
  let cvRes := calculateCVRisk d
  let renalRes := calculateRenalRisk d
  let level : RiskLevel :=
    if cvRes.tenYear > 20 ∨ renalRes.fiveYear > 15 then RiskLevel.very_high
    else if cvRes.tenYear > 10 ∨ renalRes.fiveYear > 10 then RiskLevel.high
    else if cvRes.tenYear > 5 ∨ renalRes.fiveYear > 5 then RiskLevel.moderate
    else RiskLevel.low
  { cvTimeline :=
      { fiveYear := cvRes.fiveYear
        tenYear := cvRes.tenYear
        fifteenYear := cvRes.fifteenYear }
    cv30y := { total := min (cvRes.tenYear * 2.5) 100 }
    renalTimeline :=
      { twoYear := renalRes.twoYear
        fiveYear := renalRes.fiveYear
        tenYear := renalRes.tenYear }
    combinedLevel := level }

/- calculateOptimalRisk. -/

noncomputable def optimalData (d : MedicalData) : MedicalData :=
  { d with
    systolicBP := 115
    diastolicBP := 75
    totalCholesterol := 160
    hdlCholesterol := 55
    isSmoker := false
    onHypertensionMeds := false
    onStatins := false
    hasDiabetes := d.hasDiabetes }

noncomputable def calculateOptimalRisk (d : MedicalData) : CVRisk :=
  calculateCVRisk (optimalData d)

/- Generic facts about the final clamp of the cardiovascular model. -/

lemma clamp_bounds (x : ℝ) : 0.1 ≤ min (max x 0.1) 100 ∧ min (max x 0.1) 100 ≤ 100 :=
  ⟨le_min (le_max_right x 0.1) (by norm_num), min_le_right _ _⟩

lemma renal_term_bounds (s : ℝ) (hs0 : 0 < s) (hs1 : s ≤ 1) (e : ℝ) :
    0 ≤ (1 - s ^ Real.exp e) * 100 ∧ (1 - s ^ Real.exp e) * 100 ≤ 100 := by
  have h1 : s ^ Real.exp e ≤ 1 := Real.rpow_le_one hs0.le hs1 (Real.exp_pos e).le
  have h2 : 0 < s ^ Real.exp e := Real.rpow_pos_of_pos hs0 _
  constructor <;> nlinarith

/- Congruence: calculateCVRisk reads only the nine fields below. -/
lemma calculateCVRisk_congr (d1 d2 : MedicalData)
    (hage : d1.age = d2.age) (hg : d1.gender = d2.gender)
    (hsbp : d1.systolicBP = d2.systolicBP)
    (htc : d1.totalCholesterol = d2.totalCholesterol)
    (hhdl : d1.hdlCholesterol = d2.hdlCholesterol)
    (hsm : d1.isSmoker = d2.isSmoker)
    (hdm : d1.hasDiabetes = d2.hasDiabetes)
    (hmed : d1.onHypertensionMeds = d2.onHypertensionMeds)
    (hst : d1.onStatins = d2.onStatins) :
    calculateCVRisk d1 = calculateCVRisk d2 := by
  unfold calculateCVRisk calculateRiskAtTime rawRisk riskFactor indivSum meanSum s10
    lnAge evalAge lnTotalChol lnHDL lnSBP smoker diabetes
  rw [hage, hg, hsbp, htc, hhdl, hsm, hdm, hmed, hst]

/- Congruence: calculateRenalRisk reads only the four fields below. -/
lemma calculateRenalRisk_congr (d1 d2 : MedicalData)
    (hage : d1.age = d2.age) (hg : d1.gender = d2.gender)
    (hegfr : d1.eGFR = d2.eGFR) (hacr : d1.acr = d2.acr) :
    calculateRenalRisk d1 = calculateRenalRisk d2 := by
  unfold calculateRenalRisk renalLp isMale lnACR
  rw [hage, hg, hegfr, hacr]

/- Concrete records used as witnesses. -/

noncomputable def sampleA : MedicalData :=
  { age := 55, gender := Gender.MALE, height := 175, weight := 80, bmi := 26.1
    systolicBP := 130, diastolicBP := 85, totalCholesterol := 210, hdlCholesterol := 45
    hasDiabetes := false, isSmoker := true, onHypertensionMeds := false, onStatins := false
    eGFR := 70, acr := 35, useFullKfre := false
    phosphate := none, bicarbonate := none, calcium := none, albumin := none }

noncomputable def w9a : MedicalData :=
  { age := 62, gender := Gender.FEMALE, height := 160, weight := 65, bmi := 25.4
    systolicBP := 150, diastolicBP := 95, totalCholesterol := 260, hdlCholesterol := 38
    hasDiabetes := true, isSmoker := true, onHypertensionMeds := true, onStatins := true
    eGFR := 45, acr := 300, useFullKfre := true
    phosphate := some 4.1, bicarbonate := some 22, calcium := some 9.2, albumin := some 4 }

noncomputable def w9b : MedicalData :=
  { age := 62, gender := Gender.FEMALE, height := 172, weight := 90, bmi := 30.4
    systolicBP := 118, diastolicBP := 70, totalCholesterol := 150, hdlCholesterol := 62
    hasDiabetes := true, isSmoker := false, onHypertensionMeds := false, onStatins := false
    eGFR := 95, acr := 5, useFullKfre := false
    phosphate := none, bicarbonate := none, calcium := none, albumin := none }

noncomputable def w10a : MedicalData :=
  { age := 48, gender := Gender.MALE, height := 180, weight := 95, bmi := 29.3
    systolicBP := 160, diastolicBP := 100, totalCholesterol := 280, hdlCholesterol := 33
    hasDiabetes := true, isSmoker := true, onHypertensionMeds := true, onStatins := true
    eGFR := 38, acr := 420, useFullKfre := true
    phosphate := some 5.0, bicarbonate := some 19, calcium := some 8.6, albumin := some 3.4 }

noncomputable def w10b : MedicalData :=
  { age := 48, gender := Gender.MALE, height := 165, weight := 60, bmi := 22.0
    systolicBP := 112, diastolicBP := 68, totalCholesterol := 155, hdlCholesterol := 70
    hasDiabetes := false, isSmoker := false, onHypertensionMeds := false, onStatins := false
    eGFR := 38, acr := 420, useFullKfre := false
    phosphate := none, bicarbonate := none, calcium := none, albumin := none }

/-- C2: for every record whose age, total cholesterol, HDL cholesterol and systolic
blood pressure are strictly positive, each of calculateCVRisk's fiveYear, tenYear
and fifteenYear outputs lies in the closed interval [0.1, 100]; there is no error
path (the embedding is a total function into the reals). -/
theorem C2_cv_outputs_in_clamp_range (d : MedicalData)
    (h1 : 0 < d.age) (h2 : 0 < d.totalCholesterol)
    (h3 : 0 < d.hdlCholesterol) (h4 : 0 < d.systolicBP) :
    (0.1 ≤ (calculateCVRisk d).fiveYear ∧ (calculateCVRisk d).fiveYear ≤ 100) ∧
    (0.1 ≤ (calculateCVRisk d).tenYear ∧ (calculateCVRisk d).tenYear ≤ 100) ∧
    (0.1 ≤ (calculateCVRisk d).fifteenYear ∧ (calculateCVRisk d).fifteenYear ≤ 100) :=
  ⟨clamp_bounds _, clamp_bounds _, clamp_bounds _⟩

/-- Witness for C2 at the record sampleA. -/
theorem C2_witness :
    (0.1 ≤ (calculateCVRisk sampleA).fiveYear ∧ (calculateCVRisk sampleA).fiveYear ≤ 100) ∧
    (0.1 ≤ (calculateCVRisk sampleA).tenYear ∧ (calculateCVRisk sampleA).tenYear ≤ 100) ∧
    (0.1 ≤ (calculateCVRisk sampleA).fifteenYear ∧ (calculateCVRisk sampleA).fifteenYear ≤ 100) :=
  C2_cv_outputs_in_clamp_range sampleA (by norm_num [sampleA]) (by norm_num [sampleA])
    (by norm_num [sampleA]) (by norm_num [sampleA])

/-- C7: for every record with strictly positive ACR, each renal output lies in
[0, 100] even though no clamping is applied, and each output equals
(1 - S_t ^ exp(lp)) * 100 for the fixed horizon-specific baseline survival
constants S_2 = 0.9832, S_5 = 0.9365, S_10 = 0.8200 and the KFRE linear
predictor lp. -/
theorem C7_renal_outputs_bounded_without_clamp (d : MedicalData) (h : 0 < d.acr) :
    (0 ≤ (calculateRenalRisk d).twoYear ∧ (calculateRenalRisk d).twoYear ≤ 100 ∧
      (calculateRenalRisk d).twoYear = (1 - (0.9832 : ℝ) ^ Real.exp (renalLp d)) * 100) ∧
    (0 ≤ (calculateRenalRisk d).fiveYear ∧ (calculateRenalRisk d).fiveYear ≤ 100 ∧
      (calculateRenalRisk d).fiveYear = (1 - (0.9365 : ℝ) ^ Real.exp (renalLp d)) * 100) ∧
    (0 ≤ (calculateRenalRisk d).tenYear ∧ (calculateRenalRisk d).tenYear ≤ 100 ∧
      (calculateRenalRisk d).tenYear = (1 - (0.8200 : ℝ) ^ Real.exp (renalLp d)) * 100) :=
  ⟨⟨(renal_term_bounds 0.9832 (by norm_num) (by norm_num) _).1,
    (renal_term_bounds 0.9832 (by norm_num) (by norm_num) _).2, rfl⟩,
   ⟨(renal_term_bounds 0.9365 (by norm_num) (by norm_num) _).1,
    (renal_term_bounds 0.9365 (by norm_num) (by norm_num) _).2, rfl⟩,
   ⟨(renal_term_bounds 0.8200 (by norm_num) (by norm_num) _).1,
    (renal_term_bounds 0.8200 (by norm_num) (by norm_num) _).2, rfl⟩⟩

/-- Witness for C7 at the record sampleA. -/
theorem C7_witness :
    (0 ≤ (calculateRenalRisk sampleA).twoYear ∧ (calculateRenalRisk sampleA).twoYear ≤ 100 ∧
      (calculateRenalRisk sampleA).twoYear = (1 - (0.9832 : ℝ) ^ Real.exp (renalLp sampleA)) * 100) ∧
    (0 ≤ (calculateRenalRisk sampleA).fiveYear ∧ (calculateRenalRisk sampleA).fiveYear ≤ 100 ∧
      (calculateRenalRisk sampleA).fiveYear = (1 - (0.9365 : ℝ) ^ Real.exp (renalLp sampleA)) * 100) ∧
    (0 ≤ (calculateRenalRisk sampleA).tenYear ∧ (calculateRenalRisk sampleA).tenYear ≤ 100 ∧
      (calculateRenalRisk sampleA).tenYear = (1 - (0.8200 : ℝ) ^ Real.exp (renalLp sampleA)) * 100) :=
  C7_renal_outputs_bounded_without_clamp sampleA (by norm_num [sampleA])

/-- C8: for every record, the long-horizon cardiovascular extrapolation
cv30y.total returned by getCombinedResults equals
min (2.5 * ten-year cardiovascular risk) 100. -/
theorem C8_cv30y_total_formula (d : MedicalData) :
    (getCombinedResults d).cv30y.total = min (2.5 * (calculateCVRisk d).tenYear) 100 := by
  show min ((calculateCVRisk d).tenYear * 2.5) 100 = min (2.5 * (calculateCVRisk d).tenYear) 100
  rw [mul_comm]

/-- C9: calculateOptimalRisk is determined solely by age, gender and hasDiabetes:
any two records agreeing on those three fields produce identical optimal
cardiovascular results, regardless of every other field. -/
theorem C9_optimal_depends_only_on_age_gender_diabetes (d1 d2 : MedicalData)
    (hage : d1.age = d2.age) (hg : d1.gender = d2.gender)
    (hdm : d1.hasDiabetes = d2.hasDiabetes) :
    calculateOptimalRisk d1 = calculateOptimalRisk d2 := by
  unfold calculateOptimalRisk
  exact calculateCVRisk_congr (optimalData d1) (optimalData d2)
    (by simpa [optimalData] using hage) (by simpa [optimalData] using hg)
    (by simp [optimalData]) (by simp [optimalData]) (by simp [optimalData])
    (by simp [optimalData]) (by simpa [optimalData] using hdm)
    (by simp [optimalData]) (by simp [optimalData])

/-- Witness for C9: w9a and w9b agree only on age, gender and hasDiabetes and
differ in every modifiable, renal and optional field, yet the optimal risks
coincide. -/
theorem C9_witness :
    w9a.age = w9b.age ∧ w9a.gender = w9b.gender ∧ w9a.hasDiabetes = w9b.hasDiabetes ∧
    calculateOptimalRisk w9a = calculateOptimalRisk w9b :=
  ⟨rfl, rfl, rfl, C9_optimal_depends_only_on_age_gender_diabetes w9a w9b rfl rfl rfl⟩

/-- C10: calculateRenalRisk is determined solely by age, gender, eGFR and acr:
any two records agreeing on those four fields produce identical twoYear,
fiveYear and tenYear renal outputs; in particular useFullKfre and the optional
phosphate, bicarbonate, calcium and albumin fields have no effect. -/
theorem C10_renal_depends_only_on_age_gender_egfr_acr (d1 d2 : MedicalData)
    (hage : d1.age = d2.age) (hg : d1.gender = d2.gender)
    (hegfr : d1.eGFR = d2.eGFR) (hacr : d1.acr = d2.acr) :
    calculateRenalRisk d1 = calculateRenalRisk d2 :=
  calculateRenalRisk_congr d1 d2 hage hg hegfr hacr

/-- Witness for C10: w10a and w10b agree only on age, gender, eGFR and acr and
differ in useFullKfre and all optional fields, yet the renal outputs coincide. -/
theorem C10_witness :
    w10a.age = w10b.age ∧ w10a.gender = w10b.gender ∧
    w10a.eGFR = w10b.eGFR ∧ w10a.acr = w10b.acr ∧
    calculateRenalRisk w10a = calculateRenalRisk w10b :=
  ⟨rfl, rfl, rfl, rfl, C10_renal_depends_only_on_age_gender_egfr_acr w10a w10b rfl rfl rfl rfl⟩

/- Elementary numeric bounds on exp and log used by the concrete evaluations. -/

lemma exp_upper (x : ℝ) (hx : x < 1) : Real.exp x ≤ 1 / (1 - x) := by
  have h := Real.add_one_le_exp (-x)
  have h2 : 0 < 1 - x := by linarith
  have h3 : 0 < Real.exp x := Real.exp_pos x
  rw [Real.exp_neg] at h
  rw [le_div_iff h2]
  have h4 := mul_le_mul_of_nonneg_right h h3.le
  rw [inv_mul_cancel₀ h3.ne'] at h4
  nlinarith [h4]

lemma exp_nat_eq (n : ℕ) : Real.exp n = Real.exp 1 ^ n := by
  have h := Real.exp_nat_mul 1 n
  rwa [mul_one] at h

lemma exp4_lb : (54.598 : ℝ) ≤ Real.exp 4 := by
  have h : Real.exp (4 : ℝ) = Real.exp 1 ^ 4 := by
    rw [show (4 : ℝ) = ((4 : ℕ) : ℝ) by norm_num, exp_nat_eq]
  have h2 : (2.7182818283 : ℝ) ^ 4 ≤ Real.exp 1 ^ 4 :=
    pow_le_pow_left (by norm_num) Real.exp_one_gt_d9.le 4
  rw [h]
  nlinarith [h2]

lemma exp4_ub : Real.exp 4 ≤ 54.5982 := by
  have h : Real.exp (4 : ℝ) = Real.exp 1 ^ 4 := by
    rw [show (4 : ℝ) = ((4 : ℕ) : ℝ) by norm_num, exp_nat_eq]
  have h2 : Real.exp 1 ^ 4 ≤ (2.7182818286 : ℝ) ^ 4 :=
    pow_le_pow_left (Real.exp_pos 1).le Real.exp_one_lt_d9.le 4
  rw [h]
  nlinarith [h2]

lemma exp5_lb : (148.41 : ℝ) ≤ Real.exp 5 := by
  have h : Real.exp (5 : ℝ) = Real.exp 1 ^ 5 := by
    rw [show (5 : ℝ) = ((5 : ℕ) : ℝ) by norm_num, exp_nat_eq]
  have h2 : (2.7182818283 : ℝ) ^ 5 ≤ Real.exp 1 ^ 5 :=
    pow_le_pow_left (by norm_num) Real.exp_one_gt_d9.le 5
  rw [h]
  nlinarith [h2]

lemma exp5_ub : Real.exp 5 ≤ 148.42 := by
  have h : Real.exp (5 : ℝ) = Real.exp 1 ^ 5 := by
    rw [show (5 : ℝ) = ((5 : ℕ) : ℝ) by norm_num, exp_nat_eq]
  have h2 : Real.exp 1 ^ 5 ≤ (2.7182818286 : ℝ) ^ 5 :=
    pow_le_pow_left (Real.exp_pos 1).le Real.exp_one_lt_d9.le 5
  rw [h]
  nlinarith [h2]

lemma exp2_ub : Real.exp 2 ≤ 7.3890562 := by
  have h : Real.exp (2 : ℝ) = Real.exp 1 ^ 2 := by
    rw [show (2 : ℝ) = ((2 : ℕ) : ℝ) by norm_num, exp_nat_eq]
  have h2 : Real.exp 1 ^ 2 ≤ (2.7182818286 : ℝ) ^ 2 :=
    pow_le_pow_left (Real.exp_pos 1).le Real.exp_one_lt_d9.le 2
  rw [h]
  nlinarith [h2]

lemma exp43_lb : (70.9 : ℝ) ≤ Real.exp 4.3 := by
  have h : Real.exp (4.3 : ℝ) = Real.exp 4 * Real.exp 0.3 := by
    rw [← Real.exp_add]
    norm_num
  have h2 : (1.3 : ℝ) ≤ Real.exp 0.3 := by
    have := Real.add_one_le_exp (0.3 : ℝ)
    linarith
  rw [h]
  nlinarith [exp4_lb, h2, Real.exp_pos (0.3 : ℝ)]

lemma exp41_lb : (60 : ℝ) ≤ Real.exp 4.1 := by
  have h : Real.exp (4.1 : ℝ) = Real.exp 4 * Real.exp 0.1 := by
    rw [← Real.exp_add]
    norm_num
  have h2 : (1.1 : ℝ) ≤ Real.exp 0.1 := by
    have := Real.add_one_le_exp (0.1 : ℝ)
    linarith
  rw [h]
  nlinarith [exp4_lb, h2, Real.exp_pos (0.1 : ℝ)]

lemma exp47_ub : Real.exp 4.7 ≤ 114.2 := by
  have h : Real.exp (4.7 : ℝ) = Real.exp 4 * Real.exp 0.7 := by
    rw [← Real.exp_add]
    norm_num
  have h7 : Real.exp (0.7 : ℝ) = Real.exp 0.1 ^ 7 := by
    have := Real.exp_nat_mul 0.1 7
    rw [show ((7 : ℕ) : ℝ) * (0.1 : ℝ) = (0.7 : ℝ) by norm_num] at this
    exact this
  have h1 : Real.exp (0.1 : ℝ) ≤ 1 / 0.9 := by
    have := exp_upper 0.1 (by norm_num)
    norm_num at this ⊢
    linarith
  have h2 : Real.exp 0.1 ^ 7 ≤ (1 / 0.9 : ℝ) ^ 7 :=
    pow_le_pow_left (Real.exp_pos 0.1).le h1 7
  have h3 : Real.exp (0.7 : ℝ) ≤ (1 / 0.9 : ℝ) ^ 7 := by rw [h7]; exact h2
  rw [h]
  nlinarith [exp4_ub, h3, Real.exp_pos (0.7 : ℝ), exp4_lb]

lemma log_9144_ub : Real.log 0.9144 ≤ -0.0856 := by
  rw [Real.log_le_iff_le_exp (by norm_num)]
  have := Real.add_one_le_exp (-0.0856 : ℝ)
  linarith

lemma log_9144_lb : (-0.1 : ℝ) ≤ Real.log 0.9144 := by
  rw [Real.le_log_iff_exp_le (by norm_num)]
  have := exp_upper (-0.1) (by norm_num)
  norm_num at this
  linarith

lemma log160_lb : (5 : ℝ) ≤ Real.log 160 := by
  rw [Real.le_log_iff_exp_le (by norm_num)]
  linarith [exp5_ub]

lemma log55_ub : Real.log 55 ≤ 4.1 := by
  rw [Real.log_le_iff_le_exp (by norm_num)]
  linarith [exp41_lb]

lemma log115_lb : (4.7 : ℝ) ≤ Real.log 115 := by
  rw [Real.le_log_iff_exp_le (by norm_num)]
  linarith [exp47_ub]

/- Records engineered to make the ten-year cardiovascular risk land exactly on
the stratification boundary. With total cholesterol and HDL equal to 1, age
equal to exp 4 and systolic blood pressure equal to exp of the solved
constant, the male linear predictor evaluates in closed form and the
resulting risk factor equals r exactly. -/

noncomputable def boundaryRec (r : ℝ) : MedicalData :=
  { age := Real.exp 4, gender := Gender.MALE, height := 170, weight := 70, bmi := 24.2
    systolicBP := Real.exp ((61.1816 + Real.log r - 12.344 * 4) / 1.764)
    diastolicBP := 80, totalCholesterol := 1, hdlCholesterol := 1
    hasDiabetes := false, isSmoker := false, onHypertensionMeds := false, onStatins := false
    eGFR := 100, acr := 1, useFullKfre := false
    phosphate := none, bicarbonate := none, calcium := none, albumin := none }

noncomputable def recTwenty : MedicalData := boundaryRec (Real.log 0.8 / Real.log 0.9144)

noncomputable def recTwentyPlus : MedicalData :=
  boundaryRec (Real.log 0.799999 / Real.log 0.9144)

lemma log_ratio_pos (x : ℝ) (h0 : 0 < x) (h1 : x < 1) : 0 < Real.log x / Real.log 0.9144 :=
  div_pos_of_neg_of_neg (Real.log_neg h0 h1) (Real.log_neg (by norm_num) (by norm_num))

lemma boundaryRec_evalAge (r : ℝ) : evalAge (boundaryRec r) = Real.exp 4 := by
  unfold evalAge boundaryRec
  rw [max_eq_left (by linarith [exp4_lb]), min_eq_left (by linarith [exp4_ub])]

lemma boundaryRec_indivSum (r : ℝ) : indivSum (boundaryRec r) = 61.1816 + Real.log r := by
  have hage : lnAge (boundaryRec r) = 4 := by
    unfold lnAge
    rw [boundaryRec_evalAge, Real.log_exp]
  have htc : lnTotalChol (boundaryRec r) = 0 := by
    unfold lnTotalChol boundaryRec
    exact Real.log_one
  have hhdl : lnHDL (boundaryRec r) = 0 := by
    unfold lnHDL boundaryRec
    exact Real.log_one
  have hsbp : lnSBP (boundaryRec r) = (61.1816 + Real.log r - 12.344 * 4) / 1.764 := by
    unfold lnSBP boundaryRec
    exact Real.log_exp _
  have hsm : smoker (boundaryRec r) = 0 := by
    unfold smoker
    rw [if_neg (by simp [boundaryRec])]
  have hdm : diabetes (boundaryRec r) = 0 := by
    unfold diabetes
    rw [if_neg (by simp [boundaryRec])]
  unfold indivSum
  rw [if_pos (show (boundaryRec r).gender = Gender.MALE from rfl)]
  rw [if_neg (show ¬((boundaryRec r).onHypertensionMeds = true) by simp [boundaryRec])]
  rw [hage, htc, hhdl, hsbp, hsm, hdm]
  field_simp

lemma boundaryRec_riskFactor (r : ℝ) (hr : 0 < r) : riskFactor (boundaryRec r) = r := by
  unfold riskFactor meanSum
  rw [if_pos (show (boundaryRec r).gender = Gender.MALE from rfl)]
  rw [boundaryRec_indivSum]
  rw [show (61.1816 + Real.log r - 61.1816 : ℝ) = Real.log r by ring, Real.exp_log hr]

lemma boundaryRec_raw10 (r : ℝ) (hr : 0 < r) :
    rawRisk (boundaryRec r) 10 = 1 - Real.exp (Real.log 0.9144 * r) := by
  unfold rawRisk
  rw [boundaryRec_riskFactor r hr]
  rw [show s10 (boundaryRec r) = 0.9144 from if_pos rfl]
  rw [show (10 : ℝ) / 10 = 1 by norm_num, Real.rpow_one]
  rw [Real.rpow_def_of_pos (by norm_num : (0 : ℝ) < 0.9144)]

lemma boundaryRec_tenYear (r : ℝ) (hr : 0 < r) :
    (calculateCVRisk (boundaryRec r)).tenYear =
      min (max ((1 - Real.exp (Real.log 0.9144 * r)) * 100) 0.1) 100 := by
  show calculateRiskAtTime (boundaryRec r) 10 = _
  unfold calculateRiskAtTime
  rw [if_neg (show ¬((boundaryRec r).onStatins = true) by simp [boundaryRec])]
  rw [boundaryRec_raw10 r hr]

lemma exp_log_ratio (x : ℝ) (h0 : 0 < x) :
    Real.exp (Real.log 0.9144 * (Real.log x / Real.log 0.9144)) = x := by
  rw [mul_comm, div_mul_cancel₀ _ (ne_of_lt (Real.log_neg (by norm_num) (by norm_num)))]
  exact Real.exp_log h0

lemma recTwenty_tenYear : (calculateCVRisk recTwenty).tenYear = 20 := by
  show (calculateCVRisk (boundaryRec (Real.log 0.8 / Real.log 0.9144))).tenYear = 20
  rw [boundaryRec_tenYear _ (log_ratio_pos 0.8 (by norm_num) (by norm_num))]
  rw [exp_log_ratio 0.8 (by norm_num)]
  rw [show ((1 - 0.8 : ℝ)) * 100 = 20 by norm_num]
  rw [max_eq_left (by norm_num), min_eq_left (by norm_num)]

lemma recTwentyPlus_tenYear : (calculateCVRisk recTwentyPlus).tenYear = 20.0001 := by
  show (calculateCVRisk (boundaryRec (Real.log 0.799999 / Real.log 0.9144))).tenYear = 20.0001
  rw [boundaryRec_tenYear _ (log_ratio_pos 0.799999 (by norm_num) (by norm_num))]
  rw [exp_log_ratio 0.799999 (by norm_num)]
  rw [show ((1 - 0.799999 : ℝ)) * 100 = 20.0001 by norm_num]
  rw [max_eq_left (by norm_num), min_eq_left (by norm_num)]

lemma boundaryRec_renal5_le (r : ℝ) : (calculateRenalRisk (boundaryRec r)).fiveYear ≤ 15 := by
  have hlp : renalLp (boundaryRec r) ≤ 0 := by
    unfold renalLp isMale lnACR
    rw [if_pos (show (boundaryRec r).gender = Gender.MALE from rfl)]
    show (-0.2201) * (Real.exp 4 / 10 - 7.036) + 0.2467 * (1 - 0.5642) -
        0.5567 * ((100 : ℝ) / 5 - 7.222) + 0.4510 * (Real.log 1 - 5.137) ≤ 0
    rw [Real.log_one]
    nlinarith [exp4_lb, exp4_ub]
  have he : Real.exp (renalLp (boundaryRec r)) ≤ 1 := Real.exp_le_one_iff.mpr hlp
  have h1 : (0.9365 : ℝ) ^ (1 : ℝ) ≤ (0.9365 : ℝ) ^ Real.exp (renalLp (boundaryRec r)) :=
    Real.rpow_le_rpow_of_exponent_ge (by norm_num) (by norm_num) he
  rw [Real.rpow_one] at h1
  show (1 - (0.9365 : ℝ) ^ Real.exp (renalLp (boundaryRec r))) * 100 ≤ 15
  nlinarith [h1]

/- The combined level is literally the four-tier rule applied to the two scalars. -/
lemma combinedLevel_spec (d : MedicalData) :
    (getCombinedResults d).combinedLevel =
      classifyLevel ((calculateCVRisk d).tenYear) ((calculateRenalRisk d).fiveYear) := rfl

/-- C1: getCombinedResults assigns combinedLevel by the four ordered, mutually
exclusive strict greater-than tiers on the ten-year cardiovascular risk and the
five-year renal risk (very_high if cv > 20 or renal > 15; else high if cv > 10
or renal > 10; else moderate if cv > 5 or renal > 5; else low); moreover the
record recTwenty produces a ten-year cardiovascular risk of exactly 20 and is
classified high, while recTwentyPlus produces exactly 20.0001 and is classified
very_high. -/
theorem C1_combined_level_tiers :
    (∀ d : MedicalData, (getCombinedResults d).combinedLevel =
      classifyLevel ((calculateCVRisk d).tenYear) ((calculateRenalRisk d).fiveYear)) ∧
    (calculateCVRisk recTwenty).tenYear = 20 ∧
    (getCombinedResults recTwenty).combinedLevel = RiskLevel.high ∧
    (calculateCVRisk recTwentyPlus).tenYear = 20.0001 ∧
    (getCombinedResults recTwentyPlus).combinedLevel = RiskLevel.very_high := by
  refine ⟨fun d => combinedLevel_spec d, recTwenty_tenYear, ?_, recTwentyPlus_tenYear, ?_⟩
  · rw [combinedLevel_spec, recTwenty_tenYear]
    have hren : (calculateRenalRisk recTwenty).fiveYear ≤ 15 := boundaryRec_renal5_le _
    unfold classifyLevel
    rw [if_neg (by push_neg; exact ⟨by norm_num, hren⟩)]
    rw [if_pos (Or.inl (by norm_num))]
  · rw [combinedLevel_spec, recTwentyPlus_tenYear]
    unfold classifyLevel
    rw [if_pos (Or.inl (by norm_num))]

/- C5: the claimed shape of the linear predictor. SpecCoeffs lists exactly the
nine terms named by the claim (one coefficient per term, the SBP coefficient
split by the hypertension-medication boolean); SpecCoeffsExt adds the
ln(age) * ln(age) term that the female branch of the source actually carries. -/

structure SpecCoeffs where
  cAge : ℝ
  cTc : ℝ
  cHdl : ℝ
  cSbpOn : ℝ
  cSbpOff : ℝ
  cAgeTc : ℝ
  cAgeHdl : ℝ
  cSmoke : ℝ
  cAgeSmoke : ℝ
  cDm : ℝ

/- Follows the claim wording: a linear combination of exactly the nine listed
terms with fixed coefficients and no others. -/
noncomputable def specLinearPredictor (c : SpecCoeffs) (d : MedicalData) : ℝ :=
  c.cAge * lnAge d + c.cTc * lnTotalChol d + c.cHdl * lnHDL d +
  (if d.onHypertensionMeds then c.cSbpOn else c.cSbpOff) * lnSBP d +
  c.cAgeTc * lnAge d * lnTotalChol d + c.cAgeHdl * lnAge d * lnHDL d +
  c.cSmoke * smoker d + c.cAgeSmoke * lnAge d * smoker d + c.cDm * diabetes d

structure SpecCoeffsExt where
  cAge : ℝ
  cAgeSq : ℝ
  cTc : ℝ
  cHdl : ℝ
  cSbpOn : ℝ
  cSbpOff : ℝ
  cAgeTc : ℝ
  cAgeHdl : ℝ
  cSmoke : ℝ
  cAgeSmoke : ℝ
  cDm : ℝ

noncomputable def specLinearPredictorExt (c : SpecCoeffsExt) (d : MedicalData) : ℝ :=
  c.cAge * lnAge d + c.cAgeSq * lnAge d * lnAge d +
  c.cTc * lnTotalChol d + c.cHdl * lnHDL d +
  (if d.onHypertensionMeds then c.cSbpOn else c.cSbpOff) * lnSBP d +
  c.cAgeTc * lnAge d * lnTotalChol d + c.cAgeHdl * lnAge d * lnHDL d +
  c.cSmoke * smoker d + c.cAgeSmoke * lnAge d * smoker d + c.cDm * diabetes d

noncomputable def cMaleSpec : SpecCoeffsExt :=
  { cAge := 12.344, cAgeSq := 0, cTc := 11.853, cHdl := -7.990
    cSbpOn := 1.797, cSbpOff := 1.764, cAgeTc := -2.664, cAgeHdl := 1.769
    cSmoke := 7.837, cAgeSmoke := -1.795, cDm := 0.658 }

noncomputable def cFemaleSpec : SpecCoeffsExt :=
  { cAge := -29.799, cAgeSq := 4.884, cTc := 13.540, cHdl := -13.578
    cSbpOn := 2.019, cSbpOff := 1.957, cAgeTc := -3.114, cAgeHdl := 3.149
    cSmoke := 7.574, cAgeSmoke := -1.665, cDm := 0.661 }

/- A female record with unit cholesterol, HDL and blood pressure: every listed
term except the plain ln(age) one vanishes on it. -/
noncomputable def femRec (a : ℝ) : MedicalData :=
  { age := a, gender := Gender.FEMALE, height := 165, weight := 60, bmi := 22
    systolicBP := 1, diastolicBP := 70, totalCholesterol := 1, hdlCholesterol := 1
    hasDiabetes := false, isSmoker := false, onHypertensionMeds := false, onStatins := false
    eGFR := 90, acr := 10, useFullKfre := false
    phosphate := none, bicarbonate := none, calcium := none, albumin := none }

lemma femRec_lnAge (a : ℝ) (h30 : 30 ≤ a) (h79 : a ≤ 79) :
    lnAge (femRec a) = Real.log a := by
  unfold lnAge evalAge femRec
  rw [max_eq_left h30, min_eq_left h79]

lemma femRec_indivSum (a : ℝ) (h30 : 30 ≤ a) (h79 : a ≤ 79) :
    indivSum (femRec a) = (-29.799) * Real.log a + 4.884 * Real.log a * Real.log a := by
  have hln := femRec_lnAge a h30 h79
  have htc : lnTotalChol (femRec a) = 0 := by
    unfold lnTotalChol femRec
    exact Real.log_one
  have hhdl : lnHDL (femRec a) = 0 := by
    unfold lnHDL femRec
    exact Real.log_one
  have hsbp : lnSBP (femRec a) = 0 := by
    unfold lnSBP femRec
    exact Real.log_one
  have hsm : smoker (femRec a) = 0 := by
    unfold smoker
    rw [if_neg (by simp [femRec])]
  have hdm : diabetes (femRec a) = 0 := by
    unfold diabetes
    rw [if_neg (by simp [femRec])]
  unfold indivSum
  rw [if_neg (show ¬((femRec a).gender = Gender.MALE) by simp [femRec])]
  rw [if_neg (show ¬((femRec a).onHypertensionMeds = true) by simp [femRec])]
  rw [hln, htc, hhdl, hsbp, hsm, hdm]
  ring

lemma femRec_specLinearPredictor (c : SpecCoeffs) (a : ℝ) (h30 : 30 ≤ a) (h79 : a ≤ 79) :
    specLinearPredictor c (femRec a) = c.cAge * Real.log a := by
  have hln := femRec_lnAge a h30 h79
  have htc : lnTotalChol (femRec a) = 0 := by
    unfold lnTotalChol femRec
    exact Real.log_one
  have hhdl : lnHDL (femRec a) = 0 := by
    unfold lnHDL femRec
    exact Real.log_one
  have hsbp : lnSBP (femRec a) = 0 := by
    unfold lnSBP femRec
    exact Real.log_one
  have hsm : smoker (femRec a) = 0 := by
    unfold smoker
    rw [if_neg (by simp [femRec])]
  have hdm : diabetes (femRec a) = 0 := by
    unfold diabetes
    rw [if_neg (by simp [femRec])]
  unfold specLinearPredictor
  rw [hln, htc, hhdl, hsbp, hsm, hdm]
  ring

/-- C5 counterexample: no pair of coefficient vectors over exactly the nine
listed terms reproduces the source linear predictor, because the female branch
carries a 4.884 * ln(age)^2 term that is not a linear function of ln(age) on
the clamped age range; evaluating at ages 30 and 79 forces two incompatible
values for the ln(age) coefficient. -/
theorem C5_counterexample :
    ¬ ∃ cM cF : SpecCoeffs, ∀ d : MedicalData,
      indivSum d = specLinearPredictor (if d.gender = Gender.MALE then cM else cF) d := by
  rintro ⟨cM, cF, h⟩
  have h30 := h (femRec 30)
  have h79 := h (femRec 79)
  rw [if_neg (show ¬((femRec 30).gender = Gender.MALE) by simp [femRec])] at h30
  rw [if_neg (show ¬((femRec 79).gender = Gender.MALE) by simp [femRec])] at h79
  rw [femRec_indivSum 30 (by norm_num) (by norm_num),
    femRec_specLinearPredictor cF 30 (by norm_num) (by norm_num)] at h30
  rw [femRec_indivSum 79 (by norm_num) (by norm_num),
    femRec_specLinearPredictor cF 79 (by norm_num) (by norm_num)] at h79
  have hL30 : 0 < Real.log 30 := Real.log_pos (by norm_num)
  have hL79 : 0 < Real.log 79 := Real.log_pos (by norm_num)
  have hlt : Real.log 30 < Real.log 79 := Real.log_lt_log (by norm_num) (by norm_num)
  have e30 : (4.884 * Real.log 30 - 29.799) * Real.log 30 = cF.cAge * Real.log 30 := by
    linear_combination h30
  have e79 : (4.884 * Real.log 79 - 29.799) * Real.log 79 = cF.cAge * Real.log 79 := by
    linear_combination h79
  have k30 := mul_right_cancel₀ (ne_of_gt hL30) e30
  have k79 := mul_right_cancel₀ (ne_of_gt hL79) e79
  nlinarith [k30, k79, hlt]

/-- C5 amended: the linear predictor is, for each sex, the fixed linear
combination of the nine listed terms (with age clamped to [30, 79] before the
logarithm) plus, for females only, an additional ln(age) * ln(age) term with
coefficient 4.884; the male coefficient of that extra term is 0. -/
theorem C5_amended_linear_predictor :
    (∀ d : MedicalData, indivSum d =
      specLinearPredictorExt (if d.gender = Gender.MALE then cMaleSpec else cFemaleSpec) d) ∧
    cMaleSpec.cAgeSq = 0 ∧ cFemaleSpec.cAgeSq = 4.884 := by
  refine ⟨fun d => ?_, rfl, rfl⟩
  by_cases hg : d.gender = Gender.MALE
  · rw [if_pos hg]
    by_cases hm : d.onHypertensionMeds = true
    · simp only [indivSum, specLinearPredictorExt, cMaleSpec, if_pos hg, if_pos hm]
      ring
    · simp only [indivSum, specLinearPredictorExt, cMaleSpec, if_pos hg, if_neg hm]
      ring
  · rw [if_neg hg]
    by_cases hm : d.onHypertensionMeds = true
    · simp only [indivSum, specLinearPredictorExt, cFemaleSpec, if_neg hg, if_pos hm]
      ring
    · simp only [indivSum, specLinearPredictorExt, cFemaleSpec, if_neg hg, if_neg hm]
      ring

/- Generic monotonicity and range facts about the cardiovascular raw risk. -/

lemma s10_pos (d : MedicalData) : 0 < s10 d := by
  unfold s10
  split <;> norm_num

lemma s10_lt_one (d : MedicalData) : s10 d < 1 := by
  unfold s10
  split <;> norm_num

lemma st_pos (d : MedicalData) (t : ℝ) : 0 < s10 d ^ (t / 10 : ℝ) :=
  Real.rpow_pos_of_pos (s10_pos d) _

lemma st_lt_one (d : MedicalData) (t : ℝ) (ht : 0 < t) : s10 d ^ (t / 10 : ℝ) < 1 :=
  Real.rpow_lt_one (s10_pos d).le (s10_lt_one d) (by positivity)

lemma rawRisk_lt_one (d : MedicalData) (t : ℝ) : rawRisk d t < 1 := by
  unfold rawRisk
  have h := Real.rpow_pos_of_pos (st_pos d t) (riskFactor d)
  linarith

lemma rawRisk_pos (d : MedicalData) (t : ℝ) (ht : 0 < t) : 0 < rawRisk d t := by
  unfold rawRisk
  have h := Real.rpow_lt_one (st_pos d t).le (st_lt_one d t ht) (Real.exp_pos (indivSum d - meanSum d))
  unfold riskFactor
  linarith

lemma rawRisk_strictMono (d : MedicalData) (t1 t2 : ℝ) (h0 : 0 < t1) (h12 : t1 < t2) :
    rawRisk d t1 < rawRisk d t2 := by
  unfold rawRisk
  have hst : s10 d ^ (t2 / 10 : ℝ) < s10 d ^ (t1 / 10 : ℝ) :=
    Real.rpow_lt_rpow_of_exponent_gt (s10_pos d) (s10_lt_one d) (by linarith)
  have h := Real.rpow_lt_rpow (st_pos d t2).le hst (Real.exp_pos (indivSum d - meanSum d))
  unfold riskFactor
  linarith

lemma clamped_mono (p1 p2 : ℝ) (h12 : p1 ≤ p2) :
    min (max p1 0.1) 100 ≤ min (max p2 0.1) 100 :=
  min_le_min (max_le_max h12 le_rfl) le_rfl

lemma clamped_strict (p1 p2 : ℝ) (h12 : p1 < p2) (hub1 : p1 ≤ 100) (hub2 : p2 ≤ 100)
    (hf : 0.1 < min (max p1 0.1) 100) :
    min (max p1 0.1) 100 < min (max p2 0.1) 100 := by
  rw [min_eq_left (max_le hub1 (by norm_num))] at hf ⊢
  rw [min_eq_left (max_le hub2 (by norm_num))]
  have hp1 : 0.1 < p1 := by
    rcases lt_max_iff.mp hf with h | h
    · exact h
    · linarith
  rw [max_eq_left (le_of_lt hp1), max_eq_left (by linarith)]
  exact h12

lemma riskAtTime_mono (d : MedicalData) (t1 t2 : ℝ) (h0 : 0 < t1) (h12 : t1 < t2) :
    calculateRiskAtTime d t1 ≤ calculateRiskAtTime d t2 := by
  have h := rawRisk_strictMono d t1 t2 h0 h12
  unfold calculateRiskAtTime
  by_cases hs : d.onStatins = true
  · simp only [if_pos hs]
    exact clamped_mono _ _ (by nlinarith)
  · simp only [if_neg hs]
    exact clamped_mono _ _ (by nlinarith)

lemma riskAtTime_strict (d : MedicalData) (t1 t2 : ℝ) (h0 : 0 < t1) (h12 : t1 < t2)
    (hf : 0.1 < calculateRiskAtTime d t1) :
    calculateRiskAtTime d t1 < calculateRiskAtTime d t2 := by
  have h := rawRisk_strictMono d t1 t2 h0 h12
  have h1p := rawRisk_pos d t1 h0
  have h1u := rawRisk_lt_one d t1
  have h2u := rawRisk_lt_one d t2
  unfold calculateRiskAtTime at hf ⊢
  by_cases hs : d.onStatins = true
  · simp only [if_pos hs] at hf ⊢
    exact clamped_strict _ _ (by nlinarith) (by nlinarith) (by nlinarith) hf
  · simp only [if_neg hs] at hf ⊢
    exact clamped_strict _ _ (by nlinarith) (by nlinarith) (by nlinarith) hf

/-- C3 amended: for every record, the clamped cardiovascular risks are
non-decreasing in the horizon, and they are strictly increasing as soon as the
five-year output exceeds the 0.1 lower clamp (the only way strictness can fail
is that the 0.1 floor absorbs consecutive horizons). -/
theorem C3_amended_horizon_monotone (d : MedicalData) :
    ((calculateCVRisk d).fiveYear ≤ (calculateCVRisk d).tenYear ∧
     (calculateCVRisk d).tenYear ≤ (calculateCVRisk d).fifteenYear) ∧
    (0.1 < (calculateCVRisk d).fiveYear →
      (calculateCVRisk d).fiveYear < (calculateCVRisk d).tenYear ∧
      (calculateCVRisk d).tenYear < (calculateCVRisk d).fifteenYear) := by
  refine ⟨⟨riskAtTime_mono d 5 10 (by norm_num) (by norm_num),
    riskAtTime_mono d 10 15 (by norm_num) (by norm_num)⟩, fun hf => ?_⟩
  have hf5 : 0.1 < calculateRiskAtTime d 5 := hf
  have h1 := riskAtTime_strict d 5 10 (by norm_num) (by norm_num) hf5
  have h2 := riskAtTime_strict d 10 15 (by norm_num) (by norm_num) (lt_trans hf5 h1)
  exact ⟨h1, h2⟩

/- A valid record (all logarithm arguments strictly positive) whose computed
risk is so small that the 0.1 floor absorbs every horizon: systolic blood
pressure exp(-10000) drives the male linear predictor to a huge negative
value. -/
noncomputable def cexLow : MedicalData :=
  { age := 50, gender := Gender.MALE, height := 175, weight := 80, bmi := 26
    systolicBP := Real.exp (-10000), diastolicBP := 70
    totalCholesterol := 1, hdlCholesterol := 1
    hasDiabetes := false, isSmoker := false, onHypertensionMeds := false, onStatins := false
    eGFR := 90, acr := 10, useFullKfre := false
    phosphate := none, bicarbonate := none, calcium := none, albumin := none }

lemma cexLow_indivSum : indivSum cexLow = 12.344 * Real.log 50 - 17640 := by
  have hln : lnAge cexLow = Real.log 50 := by
    unfold lnAge evalAge cexLow
    norm_num
  have htc : lnTotalChol cexLow = 0 := by
    unfold lnTotalChol cexLow
    exact Real.log_one
  have hhdl : lnHDL cexLow = 0 := by
    unfold lnHDL cexLow
    exact Real.log_one
  have hsbp : lnSBP cexLow = -10000 := by
    unfold lnSBP cexLow
    exact Real.log_exp _
  have hsm : smoker cexLow = 0 := by
    unfold smoker
    rw [if_neg (by simp [cexLow])]
  have hdm : diabetes cexLow = 0 := by
    unfold diabetes
    rw [if_neg (by simp [cexLow])]
  unfold indivSum
  rw [if_pos (show cexLow.gender = Gender.MALE from rfl)]
  rw [if_neg (show ¬(cexLow.onHypertensionMeds = true) by simp [cexLow])]
  rw [hln, htc, hhdl, hsbp, hsm, hdm]
  ring

lemma cexLow_riskFactor_le : riskFactor cexLow ≤ 0.001 := by
  have hlog : Real.log 50 ≤ 5 := by
    rw [Real.log_le_iff_le_exp (by norm_num)]
    linarith [exp5_lb]
  have h1 : riskFactor cexLow ≤ Real.exp (-17000) := by
    unfold riskFactor meanSum
    rw [if_pos (show cexLow.gender = Gender.MALE from rfl), cexLow_indivSum]
    exact Real.exp_le_exp.mpr (by linarith)
  have h2 := exp_upper (-17000) (by norm_num)
  have : Real.exp (-17000 : ℝ) ≤ 0.001 := by
    rw [show (1 : ℝ) - (-17000) = 17001 by norm_num] at h2
    nlinarith [h2]
  linarith

lemma cexLow_raw_le (t : ℝ) (h0 : 0 < t) (h15 : t ≤ 15) : rawRisk cexLow t ≤ 0.001 := by
  have hrf0 : 0 < riskFactor cexLow := Real.exp_pos _
  have hrf := cexLow_riskFactor_le
  have hs : s10 cexLow = 0.9144 := if_pos rfl
  unfold rawRisk
  rw [hs]
  rw [Real.rpow_def_of_pos (Real.rpow_pos_of_pos (by norm_num) _)]
  rw [Real.log_rpow (by norm_num)]
  have hexp := Real.add_one_le_exp (t / 10 * Real.log 0.9144 * riskFactor cexLow)
  have hlb := log_9144_lb
  have hub := log_9144_ub
  have ht10 : t / 10 ≤ 1.5 := by linarith
  have ht10p : 0 < t / 10 := by positivity
  nlinarith [mul_pos ht10p hrf0, mul_le_mul_of_nonneg_right hlb (le_of_lt (mul_pos ht10p hrf0))]

lemma cexLow_riskAtTime (t : ℝ) (h0 : 0 < t) (h15 : t ≤ 15) :
    calculateRiskAtTime cexLow t = 0.1 := by
  have h := cexLow_raw_le t h0 h15
  unfold calculateRiskAtTime
  rw [if_neg (show ¬(cexLow.onStatins = true) by simp [cexLow])]
  rw [max_eq_right (by nlinarith), min_eq_left (by norm_num)]

/-- C3 counterexample: cexLow satisfies all documented positivity
preconditions, yet its five-year and ten-year cardiovascular risks are equal
(both are absorbed by the 0.1 floor), so the risks are not strictly increasing
in the horizon. -/
theorem C3_counterexample :
    (0 < cexLow.age ∧ 0 < cexLow.totalCholesterol ∧ 0 < cexLow.hdlCholesterol ∧
      0 < cexLow.systolicBP) ∧
    ¬ ((calculateCVRisk cexLow).fiveYear < (calculateCVRisk cexLow).tenYear) := by
  constructor
  · refine ⟨by norm_num [cexLow], by norm_num [cexLow], by norm_num [cexLow], ?_⟩
    show (0 : ℝ) < cexLow.systolicBP
    simp only [cexLow]
    exact Real.exp_pos _
  · show ¬ (calculateRiskAtTime cexLow 5 < calculateRiskAtTime cexLow 10)
    rw [cexLow_riskAtTime 5 (by norm_num) (by norm_num),
      cexLow_riskAtTime 10 (by norm_num) (by norm_num)]
    exact lt_irrefl _

/- Witness record for the strict part: a male record with a large systolic
blood pressure of exp 10, whose risk factor is large enough that the five-year
output clears the 0.1 floor comfortably. -/
noncomputable def wrec : MedicalData := boundaryRec (Real.exp 5.8344)

lemma wrec_riskFactor : riskFactor wrec = Real.exp 5.8344 :=
  boundaryRec_riskFactor _ (Real.exp_pos _)

lemma wrec_raw5_lb : 0.2 ≤ rawRisk wrec 5 := by
  have hrf : (6.8344 : ℝ) ≤ riskFactor wrec := by
    rw [wrec_riskFactor]
    linarith [Real.add_one_le_exp (5.8344 : ℝ)]
  have hs : s10 wrec = 0.9144 := if_pos rfl
  unfold rawRisk
  rw [hs, Real.rpow_def_of_pos (Real.rpow_pos_of_pos (by norm_num) _),
    Real.log_rpow (by norm_num)]
  have hub := log_9144_ub
  have hy : (5 : ℝ) / 10 * Real.log 0.9144 * riskFactor wrec ≤ -0.29 := by
    nlinarith [hrf, hub]
  have h2 : Real.exp ((5 : ℝ) / 10 * Real.log 0.9144 * riskFactor wrec) ≤ Real.exp (-0.29) :=
    Real.exp_le_exp.mpr hy
  have h3 := exp_upper (-0.29) (by norm_num)
  have h4 : Real.exp (-0.29 : ℝ) ≤ 0.8 := by
    rw [show (1 : ℝ) - (-0.29) = 1.29 by norm_num] at h3
    nlinarith
  linarith

lemma wrec_fiveYear_gt : 0.1 < (calculateCVRisk wrec).fiveYear := by
  have h := wrec_raw5_lb
  show (0.1 : ℝ) < calculateRiskAtTime wrec 5
  unfold calculateRiskAtTime
  rw [if_neg (show ¬(wrec.onStatins = true) by simp [wrec, boundaryRec])]
  refine lt_min_iff.mpr ⟨?_, by norm_num⟩
  exact lt_max_iff.mpr (Or.inl (by nlinarith))

/-- Witness for C3 at the record wrec, whose five-year output exceeds the 0.1
floor, so all three horizons are strictly ordered. -/
theorem C3_witness :
    0.1 < (calculateCVRisk wrec).fiveYear ∧
    ((calculateCVRisk wrec).fiveYear < (calculateCVRisk wrec).tenYear ∧
     (calculateCVRisk wrec).tenYear < (calculateCVRisk wrec).fifteenYear) :=
  ⟨wrec_fiveYear_gt, (C3_amended_horizon_monotone wrec).2 wrec_fiveYear_gt⟩

/- The statin toggle multiplies the pre-clamp percentage by 0.75; the clamp
preserves that factor exactly when the statin-adjusted value still clears the
0.1 floor. -/
lemma statin_factor_at (d : MedicalData) (hs : d.onStatins = false) (t : ℝ)
    (hfl : 0.1 ≤ 0.75 * (rawRisk d t * 100)) :
    calculateRiskAtTime { d with onStatins := true } t = 0.75 * calculateRiskAtTime d t := by
  have hraw_eq : rawRisk { d with onStatins := true } t = rawRisk d t := rfl
  have hlt1 : rawRisk d t < 1 := rawRisk_lt_one d t
  unfold calculateRiskAtTime
  rw [if_pos (show ({ d with onStatins := true } : MedicalData).onStatins = true from rfl)]
  rw [if_neg (show ¬(d.onStatins = true) from by rw [hs]; simp)]
  rw [hraw_eq]
  have hp : 0.1 ≤ rawRisk d t * 100 := by nlinarith
  have hp2 : rawRisk d t * 100 ≤ 100 := by nlinarith
  rw [max_eq_left hp, min_eq_left hp2]
  rw [max_eq_left (by nlinarith), min_eq_left (by nlinarith)]
  ring

/-- C4 amended: for a record not on statins, toggling on-statins to true
multiplies each horizon's computed risk by exactly 0.75, provided the
statin-adjusted unclamped percentage 0.75 * (raw risk * 100) still reaches the
0.1 floor at that horizon (the upper clamp can never interfere because the raw
risk is below 1, but the lower clamp breaks the factor for tiny risks). -/
theorem C4_amended_statin_factor (d : MedicalData) (hs : d.onStatins = false)
    (h5 : 0.1 ≤ 0.75 * (rawRisk d 5 * 100))
    (h10 : 0.1 ≤ 0.75 * (rawRisk d 10 * 100))
    (h15 : 0.1 ≤ 0.75 * (rawRisk d 15 * 100)) :
    (calculateCVRisk { d with onStatins := true }).fiveYear =
      0.75 * (calculateCVRisk d).fiveYear ∧
    (calculateCVRisk { d with onStatins := true }).tenYear =
      0.75 * (calculateCVRisk d).tenYear ∧
    (calculateCVRisk { d with onStatins := true }).fifteenYear =
      0.75 * (calculateCVRisk d).fifteenYear :=
  ⟨statin_factor_at d hs 5 h5, statin_factor_at d hs 10 h10, statin_factor_at d hs 15 h15⟩

lemma cexLowS_riskAtTime10 :
    calculateRiskAtTime { cexLow with onStatins := true } 10 = 0.1 := by
  have h : rawRisk { cexLow with onStatins := true } 10 = rawRisk cexLow 10 := rfl
  have hle := cexLow_raw_le 10 (by norm_num) (by norm_num)
  unfold calculateRiskAtTime
  rw [if_pos (show ({ cexLow with onStatins := true } : MedicalData).onStatins = true from rfl)]
  rw [h]
  rw [max_eq_right (by nlinarith), min_eq_left (by norm_num)]

/-- C4 counterexample: cexLow has unclamped risks far below 100/0.75 at every
horizon, yet toggling on-statins leaves the ten-year output at the 0.1 floor
instead of multiplying it by 0.75 (0.1 is not equal to 0.75 * 0.1). -/
theorem C4_counterexample :
    (rawRisk cexLow 5 * 100 < 100 / 0.75 ∧ rawRisk cexLow 10 * 100 < 100 / 0.75 ∧
     rawRisk cexLow 15 * 100 < 100 / 0.75) ∧
    ¬ ((calculateCVRisk { cexLow with onStatins := true }).tenYear =
        0.75 * (calculateCVRisk cexLow).tenYear) := by
  have h5 := cexLow_raw_le 5 (by norm_num) (by norm_num)
  have h10 := cexLow_raw_le 10 (by norm_num) (by norm_num)
  have h15 := cexLow_raw_le 15 (by norm_num) (by norm_num)
  refine ⟨⟨by nlinarith, by nlinarith, by nlinarith⟩, ?_⟩
  show ¬ (calculateRiskAtTime { cexLow with onStatins := true } 10 =
      0.75 * calculateRiskAtTime cexLow 10)
  rw [cexLowS_riskAtTime10, cexLow_riskAtTime 10 (by norm_num) (by norm_num)]
  norm_num

/-- Witness for C4 at the record wrec: its raw risks clear the floor at all
three horizons, and the statin toggle scales each output by exactly 0.75. -/
theorem C4_witness :
    wrec.onStatins = false ∧
    (0.1 ≤ 0.75 * (rawRisk wrec 5 * 100) ∧ 0.1 ≤ 0.75 * (rawRisk wrec 10 * 100) ∧
     0.1 ≤ 0.75 * (rawRisk wrec 15 * 100)) ∧
    ((calculateCVRisk { wrec with onStatins := true }).fiveYear =
        0.75 * (calculateCVRisk wrec).fiveYear ∧
     (calculateCVRisk { wrec with onStatins := true }).tenYear =
        0.75 * (calculateCVRisk wrec).tenYear ∧
     (calculateCVRisk { wrec with onStatins := true }).fifteenYear =
        0.75 * (calculateCVRisk wrec).fifteenYear) := by
  have hr5 := wrec_raw5_lb
  have hr10 : rawRisk wrec 5 ≤ rawRisk wrec 10 :=
    (rawRisk_strictMono wrec 5 10 (by norm_num) (by norm_num)).le
  have hr15 : rawRisk wrec 10 ≤ rawRisk wrec 15 :=
    (rawRisk_strictMono wrec 10 15 (by norm_num) (by norm_num)).le
  have h5 : (0.1 : ℝ) ≤ 0.75 * (rawRisk wrec 5 * 100) := by nlinarith
  have h10 : (0.1 : ℝ) ≤ 0.75 * (rawRisk wrec 10 * 100) := by nlinarith
  have h15 : (0.1 : ℝ) ≤ 0.75 * (rawRisk wrec 15 * 100) := by nlinarith
  exact ⟨rfl, ⟨h5, h10, h15⟩, C4_amended_statin_factor wrec rfl h5 h10 h15⟩

/- C6: the statin toggle breaks the optimal-counterfactual comparison. On a
record whose modifiable numeric fields already sit at the optimal constants
but which is on statins, calculateOptimalRisk switches the statins off and
returns a strictly higher ten-year risk than the original record. -/

noncomputable def cexStatin : MedicalData :=
  { age := Real.exp 4, gender := Gender.MALE, height := 178, weight := 82, bmi := 25.9
    systolicBP := 115, diastolicBP := 75, totalCholesterol := 160, hdlCholesterol := 55
    hasDiabetes := false, isSmoker := false, onHypertensionMeds := false, onStatins := true
    eGFR := 90, acr := 1, useFullKfre := false
    phosphate := none, bicarbonate := none, calcium := none, albumin := none }

lemma cexStatin_indivSum : indivSum cexStatin =
    12.344 * 4 + 11.853 * Real.log 160 + (-2.664) * 4 * Real.log 160 +
    (-7.990) * Real.log 55 + 1.769 * 4 * Real.log 55 + 1.764 * Real.log 115 := by
  have hln : lnAge cexStatin = 4 := by
    unfold lnAge evalAge cexStatin
    rw [max_eq_left (by linarith [exp4_lb]), min_eq_left (by linarith [exp4_ub]),
      Real.log_exp]
  have htc : lnTotalChol cexStatin = Real.log 160 := rfl
  have hhdl : lnHDL cexStatin = Real.log 55 := rfl
  have hsbp : lnSBP cexStatin = Real.log 115 := rfl
  have hsm : smoker cexStatin = 0 := by
    unfold smoker
    rw [if_neg (by simp [cexStatin])]
  have hdm : diabetes cexStatin = 0 := by
    unfold diabetes
    rw [if_neg (by simp [cexStatin])]
  unfold indivSum
  rw [if_pos (show cexStatin.gender = Gender.MALE from rfl)]
  rw [if_neg (show ¬(cexStatin.onHypertensionMeds = true) by simp [cexStatin])]
  rw [hln, htc, hhdl, hsbp, hsm, hdm]
  ring

lemma cexStatin_rf_lb : 0.135 ≤ riskFactor cexStatin := by
  have hsum : (59.9 : ℝ) ≤ indivSum cexStatin := by
    rw [cexStatin_indivSum]
    linarith [log160_lb, log55_ub, log115_lb]
  have h1 : Real.exp (-2 : ℝ) ≤ riskFactor cexStatin := by
    unfold riskFactor meanSum
    rw [if_pos (show cexStatin.gender = Gender.MALE from rfl)]
    exact Real.exp_le_exp.mpr (by linarith)
  have hp := Real.exp_pos (2 : ℝ)
  have h2 : (0.135 : ℝ) ≤ Real.exp (-2) := by
    rw [Real.exp_neg]
    nlinarith [mul_inv_cancel₀ hp.ne', exp2_ub, (inv_pos.mpr hp).le]
  linarith

lemma cexStatin_raw10_lb : 0.011 ≤ rawRisk cexStatin 10 := by
  have hrf := cexStatin_rf_lb
  have hs : s10 cexStatin = 0.9144 := if_pos rfl
  unfold rawRisk
  rw [hs, Real.rpow_def_of_pos (Real.rpow_pos_of_pos (by norm_num) _),
    Real.log_rpow (by norm_num)]
  have hub := log_9144_ub
  have hy : (10 : ℝ) / 10 * Real.log 0.9144 * riskFactor cexStatin ≤ -0.011556 := by
    nlinarith [hrf, hub]
  have h2 := Real.exp_le_exp.mpr hy
  have h3 := exp_upper (-0.011556) (by norm_num)
  have h4 : Real.exp (-0.011556 : ℝ) ≤ 0.989 := by
    rw [show (1 : ℝ) - (-0.011556) = 1.011556 by norm_num] at h3
    nlinarith
  linarith

lemma cexStatin_tenYear :
    (calculateCVRisk cexStatin).tenYear = rawRisk cexStatin 10 * 0.75 * 100 := by
  have h := cexStatin_raw10_lb
  have hu := rawRisk_lt_one cexStatin 10
  show calculateRiskAtTime cexStatin 10 = _
  unfold calculateRiskAtTime
  rw [if_pos (show cexStatin.onStatins = true from rfl)]
  rw [max_eq_left (by nlinarith), min_eq_left (by nlinarith)]

lemma cexStatin_optimal_tenYear :
    (calculateOptimalRisk cexStatin).tenYear = rawRisk cexStatin 10 * 100 := by
  have hraw : rawRisk (optimalData cexStatin) 10 = rawRisk cexStatin 10 := rfl
  have h := cexStatin_raw10_lb
  have hu := rawRisk_lt_one cexStatin 10
  show calculateRiskAtTime (optimalData cexStatin) 10 = _
  unfold calculateRiskAtTime
  rw [if_neg (show ¬((optimalData cexStatin).onStatins = true) by simp [optimalData])]
  rw [hraw]
  rw [max_eq_left (by nlinarith), min_eq_left (by nlinarith)]

/-- C6 counterexample: cexStatin has strictly positive ACR and modifiable
fields at or worse than the optimal constants (it is on statins, everything
else already optimal), yet its optimal ten-year risk strictly exceeds its
original ten-year risk, because removing the statin raises the computed risk
by the factor 1/0.75. -/
theorem C6_counterexample :
    (0 < cexStatin.acr ∧ 115 ≤ cexStatin.systolicBP ∧ 160 ≤ cexStatin.totalCholesterol ∧
      0 < cexStatin.hdlCholesterol ∧ cexStatin.hdlCholesterol ≤ 55 ∧
      cexStatin.isSmoker = false ∧ cexStatin.onStatins = true) ∧
    ¬ ((calculateOptimalRisk cexStatin).tenYear ≤ (calculateCVRisk cexStatin).tenYear) := by
  refine ⟨⟨by norm_num [cexStatin], by norm_num [cexStatin], by norm_num [cexStatin],
    by norm_num [cexStatin], by norm_num [cexStatin], rfl, rfl⟩, ?_⟩
  rw [cexStatin_optimal_tenYear, cexStatin_tenYear]
  push_neg
  nlinarith [cexStatin_raw10_lb]

lemma evalAge_pos (d : MedicalData) : 0 < evalAge d :=
  lt_min (lt_of_lt_of_le (by norm_num : (0 : ℝ) < 30) (le_max_right _ _)) (by norm_num)

lemma lnAge_nonneg (d : MedicalData) : 0 ≤ lnAge d :=
  Real.log_nonneg (le_min (le_trans (by norm_num : (1 : ℝ) ≤ 30) (le_max_right _ _)) (by norm_num))

lemma lnAge_le_43 (d : MedicalData) (h70 : d.age ≤ 70) : lnAge d ≤ 4.3 := by
  unfold lnAge
  rw [Real.log_le_iff_le_exp (evalAge_pos d)]
  calc evalAge d ≤ max d.age 30 := min_le_left _ _
    _ ≤ 70 := max_le h70 (by norm_num)
    _ ≤ Real.exp 4.3 := by linarith [exp43_lb]

lemma smoker_nonneg (d : MedicalData) : 0 ≤ smoker d := by
  unfold smoker
  split <;> norm_num

/- Comparing the linear predictor of the optimal counterfactual with the
original one: with age at most 70, every sex-specific coefficient of a
modifiable term has the sign that makes worse-than-optimal values increase
the sum. -/
set_option maxHeartbeats 1000000 in
lemma indivSum_optimal_le (d : MedicalData) (h70 : d.age ≤ 70)
    (hsbp : 115 ≤ d.systolicBP) (htc : 160 ≤ d.totalCholesterol)
    (hhdl0 : 0 < d.hdlCholesterol) (hhdl : d.hdlCholesterol ≤ 55) :
    indivSum (optimalData d) ≤ indivSum d := by
  have hLa : lnAge d ≤ 4.3 := lnAge_le_43 d h70
  have hLa0 : 0 ≤ lnAge d := lnAge_nonneg d
  have hTC : Real.log 160 ≤ lnTotalChol d := Real.log_le_log (by norm_num) htc
  have hHDL : lnHDL d ≤ Real.log 55 := Real.log_le_log hhdl0 hhdl
  have hSBP : Real.log 115 ≤ lnSBP d := Real.log_le_log (by norm_num) hsbp
  have h115 : (0 : ℝ) ≤ Real.log 115 := Real.log_nonneg (by norm_num)
  have hSBP0 : (0 : ℝ) ≤ lnSBP d := le_trans h115 hSBP
  have hsm := smoker_nonneg d
  have e1 : lnTotalChol (optimalData d) = Real.log 160 := rfl
  have e2 : lnHDL (optimalData d) = Real.log 55 := rfl
  have e3 : lnSBP (optimalData d) = Real.log 115 := rfl
  have e4 : lnAge (optimalData d) = lnAge d := rfl
  have e5 : smoker (optimalData d) = 0 := rfl
  have e6 : diabetes (optimalData d) = diabetes d := rfl
  unfold indivSum
  by_cases hg : d.gender = Gender.MALE
  · rw [if_pos (show (optimalData d).gender = Gender.MALE from hg), if_pos hg]
    rw [if_neg (show ¬((optimalData d).onHypertensionMeds = true) by simp [optimalData])]
    rw [e1, e2, e3, e4, e5, e6]
    by_cases hm : d.onHypertensionMeds = true
    · rw [if_pos hm]
      nlinarith [mul_nonneg (by linarith : (0 : ℝ) ≤ 11.853 - 2.664 * lnAge d)
          (by linarith : (0 : ℝ) ≤ lnTotalChol d - Real.log 160),
        mul_nonneg (by linarith : (0 : ℝ) ≤ 7.990 - 1.769 * lnAge d)
          (by linarith : (0 : ℝ) ≤ Real.log 55 - lnHDL d),
        mul_nonneg (by linarith : (0 : ℝ) ≤ 7.837 - 1.795 * lnAge d) hsm]
    · rw [if_neg hm]
      nlinarith [mul_nonneg (by linarith : (0 : ℝ) ≤ 11.853 - 2.664 * lnAge d)
          (by linarith : (0 : ℝ) ≤ lnTotalChol d - Real.log 160),
        mul_nonneg (by linarith : (0 : ℝ) ≤ 7.990 - 1.769 * lnAge d)
          (by linarith : (0 : ℝ) ≤ Real.log 55 - lnHDL d),
        mul_nonneg (by linarith : (0 : ℝ) ≤ 7.837 - 1.795 * lnAge d) hsm]
  · rw [if_neg (show ¬((optimalData d).gender = Gender.MALE) from hg), if_neg hg]
    rw [if_neg (show ¬((optimalData d).onHypertensionMeds = true) by simp [optimalData])]
    rw [e1, e2, e3, e4, e5, e6]
    by_cases hm : d.onHypertensionMeds = true
    · rw [if_pos hm]
      nlinarith [mul_nonneg (by linarith : (0 : ℝ) ≤ 13.540 - 3.114 * lnAge d)
          (by linarith : (0 : ℝ) ≤ lnTotalChol d - Real.log 160),
        mul_nonneg (by linarith : (0 : ℝ) ≤ 13.578 - 3.149 * lnAge d)
          (by linarith : (0 : ℝ) ≤ Real.log 55 - lnHDL d),
        mul_nonneg (by linarith : (0 : ℝ) ≤ 7.574 - 1.665 * lnAge d) hsm]
    · rw [if_neg hm]
      nlinarith [mul_nonneg (by linarith : (0 : ℝ) ≤ 13.540 - 3.114 * lnAge d)
          (by linarith : (0 : ℝ) ≤ lnTotalChol d - Real.log 160),
        mul_nonneg (by linarith : (0 : ℝ) ≤ 13.578 - 3.149 * lnAge d)
          (by linarith : (0 : ℝ) ≤ Real.log 55 - lnHDL d),
        mul_nonneg (by linarith : (0 : ℝ) ≤ 7.574 - 1.665 * lnAge d) hsm]

/-- C6 amended: for every record with strictly positive ACR that is NOT on
statins, has age at most 70, systolic BP at least 115, total cholesterol at
least 160 and HDL in (0, 55], the optimal ten-year risk is at most the
original ten-year risk. (The statin restriction is forced: removing a statin
raises risk. The age bound is needed because several coefficient signs flip
near the top of the clamped age range, and equality can also occur at the 0.1
floor, so the equality-only-when-equal rider is dropped.) -/
theorem C6_amended_optimal_le (d : MedicalData) (hacr : 0 < d.acr)
    (hst : d.onStatins = false) (h70 : d.age ≤ 70)
    (hsbp : 115 ≤ d.systolicBP) (htc : 160 ≤ d.totalCholesterol)
    (hhdl0 : 0 < d.hdlCholesterol) (hhdl : d.hdlCholesterol ≤ 55) :
    (calculateOptimalRisk d).tenYear ≤ (calculateCVRisk d).tenYear := by
  have hsum := indivSum_optimal_le d h70 hsbp htc hhdl0 hhdl
  have hmean : meanSum (optimalData d) = meanSum d := rfl
  have hs10 : s10 (optimalData d) = s10 d := rfl
  have hrf : riskFactor (optimalData d) ≤ riskFactor d := by
    unfold riskFactor
    rw [hmean]
    exact Real.exp_le_exp.mpr (by linarith)
  have hraw : rawRisk (optimalData d) 10 ≤ rawRisk d 10 := by
    unfold rawRisk
    rw [hs10]
    have h1 : (0 : ℝ) < s10 d ^ ((10 : ℝ) / 10) := st_pos d 10
    have h2 : s10 d ^ ((10 : ℝ) / 10) ≤ 1 := le_of_lt (st_lt_one d 10 (by norm_num))
    have h3 := Real.rpow_le_rpow_of_exponent_ge h1 h2 hrf
    linarith
  show calculateRiskAtTime (optimalData d) 10 ≤ calculateRiskAtTime d 10
  unfold calculateRiskAtTime
  rw [if_neg (show ¬((optimalData d).onStatins = true) by simp [optimalData]),
    if_neg (show ¬(d.onStatins = true) by rw [hst]; simp)]
  exact clamped_mono _ _ (by nlinarith)

noncomputable def w6 : MedicalData :=
  { age := 50, gender := Gender.MALE, height := 176, weight := 84, bmi := 27.1
    systolicBP := 140, diastolicBP := 90, totalCholesterol := 200, hdlCholesterol := 40
    hasDiabetes := true, isSmoker := true, onHypertensionMeds := true, onStatins := false
    eGFR := 80, acr := 30, useFullKfre := false
    phosphate := none, bicarbonate := none, calcium := none, albumin := none }

/-- Witness for the amended C6 at the record w6, which satisfies all the
hypotheses with strict slack. -/
theorem C6_witness :
    (0 < w6.acr ∧ w6.onStatins = false ∧ w6.age ≤ 70 ∧ 115 ≤ w6.systolicBP ∧
     160 ≤ w6.totalCholesterol ∧ 0 < w6.hdlCholesterol ∧ w6.hdlCholesterol ≤ 55) ∧
    (calculateOptimalRisk w6).tenYear ≤ (calculateCVRisk w6).tenYear :=
  ⟨⟨by norm_num [w6], rfl, by norm_num [w6], by norm_num [w6], by norm_num [w6],
    by norm_num [w6], by norm_num [w6]⟩,
   C6_amended_optimal_le w6 (by norm_num [w6]) rfl (by norm_num [w6]) (by norm_num [w6])
     (by norm_num [w6]) (by norm_num [w6]) (by norm_num [w6])⟩

end CardioRenal
